import Mathlib

/-!
Verification of the sora-video-frontend job submission / polling state machine.

The repository contains two near-identical variants of the application:
`src/unnamed/part_000` (called the part_000 variant below, with a
`checkJobStatus` poll handler, a per-job consecutive-404 retry counter and a
resolution validator) and `src/src/App.tsx` (called the App variant below,
with an inline `poll` closure and no 404-specific handling).  Both variants
are embedded here.  JavaScript strings are modelled by `String`, JavaScript
`undefined`/absent fields by `Option`, and JavaScript truthiness of strings
(where the empty string is falsy) by `truthyStr`.  Browser timers are
modelled explicitly: `activeTimers` is the multiset of recurring intervals
that are actually running, `pollingInterval` is the React ref holding the
most recently stored interval handle, and `pendingRetries` is the list of
one-off `setTimeout` retries that have been scheduled and have not fired.
-/

namespace Sora

/-- Truthiness of an optional JavaScript string: `undefined`/`null` and the
empty string are falsy, every other string is truthy. -/
def truthyStr : Option String → Bool
  | none => false
  | some s => s ≠ ""

/-- JavaScript `a || b` for two optional strings. -/
def orStr (a b : Option String) : Option String :=
  if truthyStr a then a else b

/-- JavaScript `a || b` where the fallback is a present string
(for example `status || prev.status`). -/
def orStrD (a : Option String) (b : String) : String :=
  match a with
  | some s => if s = "" then b else s
  | none => b

/-- JavaScript `a || b` for optional objects: every object is truthy, so the
choice is by presence. -/
def orObj {α : Type} (a b : Option α) : Option α :=
  if a.isSome then a else b

/-- JavaScript `String.prototype.trim`, modelled character-wise over the
ASCII whitespace class. -/
def jsTrim (s : String) : String :=
  String.mk (((s.toList.dropWhile Char.isWhitespace).reverse.dropWhile
    Char.isWhitespace).reverse)

/-- Accumulator loop for splitting a character list at every whitespace
character, producing the empty-string pieces that a JavaScript
`split(/\s+/)` of an untrimmed string can also produce; callers filter the
empty pieces away, matching the `filter(Boolean)` in the source. -/
def splitWsAux : List Char → List Char → List String
  | [], acc => [String.mk acc.reverse]
  | c :: cs, acc =>
    if Char.isWhitespace c then String.mk acc.reverse :: splitWsAux cs []
    else splitWsAux cs (c :: acc)

/-- Split a string at whitespace characters. -/
def jsSplitWs (s : String) : List String :=
  splitWsAux s.toList []

/-- JavaScript `String.prototype.toLowerCase`, modelled character-wise over
ASCII. -/
def jsToLower (s : String) : String :=
  String.mk (s.toList.map Char.toLower)

/-- JavaScript `Array.prototype.join` with a separator. -/
def joinWith (sep : String) : List String → String
  | [] => ""
  | [w] => w
  | w :: ws => w ++ sep ++ joinWith sep ws

/-- Characters accepted by the filename regex character class
(the class a-z0-9_ with the case-insensitive flag). -/
def isSafeFilenameChar (c : Char) : Bool :=
  decide (('a' ≤ c ∧ c ≤ 'z') ∨ ('A' ≤ c ∧ c ≤ 'Z') ∨ ('0' ≤ c ∧ c ≤ '9') ∨ c = '_')

/-- The replacement performed by the source on the derived name: every
character outside the safe class is replaced by an underscore. -/
def jsReplaceInvalid (s : String) : String :=
  String.mk (s.toList.map (fun c => if isSafeFilenameChar c then c else '_'))

/-- Tokenisation shared by the filename derivation: trim the prompt, split at
whitespace and drop empty pieces, exactly as in the source line
`promptText.trim().split(...).filter(Boolean)`. -/
def promptWords (promptText : String) : List String :=
  (jsSplitWs (jsTrim promptText)).filter (fun w => w ≠ "")

/-- Embedding of `getVideoFilename` (identical in both variants):
first two whitespace-separated words of the prompt, joined with an
underscore and lowercased, defaulting to the literal name video, then every
unsafe character replaced by an underscore and the mp4 suffix appended. -/
def getVideoFilename (promptText : String) : String :=
  let words := promptWords promptText
  let name :=
    if words.length > 0 then jsToLower (joinWith "_" (words.take 2))
    else "video"
  jsReplaceInvalid name ++ ".mp4"

/-- Modelled from the spec (amended): take the first two whitespace-separated
tokens, lowercase them, join with an underscore, replace any character
outside the safe class with an underscore, append the mp4 suffix; with no
tokens use the literal name video. -/
def deriveFilenameSpec (promptText : String) : String :=
  let tokens := promptWords promptText
  if tokens.isEmpty then "video.mp4"
  else jsReplaceInvalid (joinWith "_" ((tokens.take 2).map jsToLower)) ++ ".mp4"

/-- Optional result object of a status poll response. -/
structure ResultPayload where
  video_id : Option String := none
  filename : Option String := none
  video_url : Option String := none
deriving DecidableEq

/-- Fields consumed from a successful status poll response; every field is
optional.  The opaque upstream-provider response object is modelled by an
opaque numeric handle, present or absent. -/
structure PollResponse where
  status : Option String := none
  result : Option ResultPayload := none
  error : Option String := none
  progress : Option Int := none
  openai_status : Option String := none
  openai_response : Option Nat := none
deriving DecidableEq

/-- Captured request parameters stamped on the job at submission time. -/
structure GenerationDetails where
  prompt : String
  duration : Int
  resolution : String
  createdAt : String
deriving DecidableEq

/-- The VideoJob record of the part_000 variant. -/
structure VideoJob where
  id : String
  status : String
  error : Option String := none
  videoUrl : Option String := none
  progress : Option Int := none
  videoId : Option String := none
  openAiStatus : Option String := none
  openAiResponse : Option Nat := none
  result : Option ResultPayload := none
  prompt : String := ""
  duration : Int := 0
  resolution : String := ""
  createdAt : String := ""
  generationDetails : Option GenerationDetails := none
deriving DecidableEq

/-- The VideoJob record of the App variant, which has no result field and no
flat copies of the request parameters. -/
structure VideoJobApp where
  id : String
  status : String
  error : Option String := none
  videoUrl : Option String := none
  progress : Option Int := none
  videoId : Option String := none
  openAiStatus : Option String := none
  openAiResponse : Option Nat := none
  generationDetails : Option GenerationDetails := none
deriving DecidableEq

/-- Values held by the submission form. -/
structure FormValues where
  prompt : String
  duration : Int
  resolution : String
deriving DecidableEq

/-- A recurring browser interval that is actually running: its handle, its
period in milliseconds and the job id its callback polls. -/
structure Timer where
  id : Nat
  intervalMs : Nat
  jobId : String
deriving DecidableEq

/-- A scheduled one-off retry (a `setTimeout` that has not fired yet). -/
structure RetryTask where
  delayMs : Nat
  jobId : String
deriving DecidableEq

/-- Component state of the part_000 variant: the job record, the flags and
messages held in React state, the interval ref, the per-job retry counters
(a module-level mutable map in the source, modelled as an association list),
and the explicit timer environment. -/
structure AppState where
  job : Option VideoJob := none
  isLoading : Bool := false
  isGenerating : Bool := false
  error : Option String := none
  statusEmoji : String := "⏳"
  showDownloadModal : Bool := false
  pollingInterval : Option Nat := none
  retryCount : List (String × Nat) := []
  activeTimers : List Timer := []
  pendingRetries : List RetryTask := []
  nextTimerId : Nat := 1
deriving DecidableEq

/-- Component state of the App variant. -/
structure AppStateX where
  job : Option VideoJobApp := none
  isLoading : Bool := false
  error : Option String := none
  statusEmoji : String := "⏳"
  openAiStatusMsg : String := ""
  showDownloadModal : Bool := false
  pollingInterval : Option Nat := none
  activeTimers : List Timer := []
  nextTimerId : Nat := 1
deriving DecidableEq

/-- Data of a create-request response; the id field may be absent. -/
structure CreateResponse where
  id : Option String := none
deriving DecidableEq

/-- Outcome of the create request: a response body, or a rejection carrying
the optional server detail and the optional transport message. -/
inductive CreateOutcome where
  | ok (r : CreateResponse)
  | err (detail : Option String) (message : Option String)
deriving DecidableEq

/-- Outcome of one status poll request: a parsed response body, a 404
rejection, or any other rejection carrying its optional message. -/
inductive PollOutcome where
  | ok (r : PollResponse)
  | notFound
  | err (message : Option String)
deriving DecidableEq

/-- Retry threshold of the part_000 variant. -/
def MAX_RETRIES : Nat := 5

/-- One-off retry delay of the part_000 variant, in milliseconds. -/
def RETRY_DELAY : Nat := 2000

/-- Read a per-job retry counter, defaulting to zero as the source does. -/
def rcGet (m : List (String × Nat)) (k : String) : Nat :=
  match m.find? (fun p => p.1 == k) with
  | some p => p.2
  | none => 0

/-- Store a per-job retry counter. -/
def rcSet : List (String × Nat) → String → Nat → List (String × Nat)
  | [], k, v => [(k, v)]
  | p :: rest, k, v => if p.1 == k then (k, v) :: rest else p :: rcSet rest k v

/-- Remove a timer handle from the running-timer environment; this models
`clearInterval`. -/
def removeTimer (l : List Timer) (t : Nat) : List Timer :=
  l.filter (fun tm => tm.id != t)

/-- The guarded clearing idiom of the part_000 variant: when the interval
ref is non-null, clear the interval and null the ref. -/
def clearRef (s : AppState) : AppState :=
  match s.pollingInterval with
  | some t => { s with activeTimers := removeTimer s.activeTimers t, pollingInterval := none }
  | none => s

/-- The diagnostic message stored when the 404 retry threshold is reached. -/
def finalizingMsg : String :=
  "Finalizing video... (this may take a few more moments)"

/-- Field-wise merge of a poll response into the existing job record,
embedding the setJob updater of the part_000 variant: status, error and the
provider fields merge by JavaScript truthiness, progress merges by presence,
the result object merges by presence, and the video url takes the response
result video url when truthy. -/
def mergeJob (prev : VideoJob) (r : PollResponse) : VideoJob :=
  { prev with
    status := orStrD r.status prev.status
    progress := if r.progress.isSome then r.progress else prev.progress
    error := orStr r.error prev.error
    openAiStatus := orStr r.openai_status prev.openAiStatus
    openAiResponse := orObj r.openai_response prev.openAiResponse
    result := orObj r.result prev.result
    videoUrl := orStr (r.result.bind ResultPayload.video_url) prev.videoUrl }

/-- Video url computed by the App variant from a poll response: the result
video url when truthy, else a url constructed from the result video id with
the window origin and a cache-busting timestamp, else absent. -/
def appVideoUrl (r : PollResponse) (origin : String) (now : Nat) : Option String :=
  match r.result with
  | none => none
  | some res =>
    if truthyStr res.video_url then res.video_url
    else if truthyStr res.video_id then
      some (origin ++ "/api/v1/videos/" ++ res.video_id.getD "" ++ "?t=" ++ toString now)
    else none

/-- Field-wise merge of a poll response in the App variant. -/
def mergeJobApp (prev : VideoJobApp) (r : PollResponse) (origin : String) (now : Nat) :
    VideoJobApp :=
  { prev with
    status := orStrD r.status prev.status
    progress := if r.progress.isSome then r.progress else prev.progress
    error := orStr r.error prev.error
    openAiStatus := orStr r.openai_status prev.openAiStatus
    openAiResponse := orObj r.openai_response prev.openAiResponse
    videoUrl := orStr (appVideoUrl r origin now) prev.videoUrl }

/-- Embedding of `checkJobStatus` of the part_000 variant, the poll callback
invoked by the recurring interval and by the one-off retries.  A successful
response resets the retry counter, merges into the job, and on a terminal
status clears the interval and surfaces the outcome.  A 404 increments the
retry counter and, below the threshold, schedules a one-off retry, while at
the threshold it rewrites the job status to processing with the finalizing
diagnostic and replaces the interval by a five-second one.  Any other error
records the message on the job and nulls the interval ref; note that the
source nulls the ref without calling `clearInterval`, so the running timer
is deliberately left inside `activeTimers` by this embedding. -/
def checkJobStatus (s : AppState) (jobId : String) (o : PollOutcome) : AppState :=
  match o with
  | .ok r =>
    let s1 : AppState :=
      { s with retryCount := rcSet s.retryCount jobId 0
               job := s.job.map (fun prev => mergeJob prev r) }
    if r.status = some "completed" then
      { clearRef s1 with isLoading := false, isGenerating := false,
                         statusEmoji := "✅", showDownloadModal := true }
    else if r.status = some "failed" then
      { clearRef s1 with isLoading := false, isGenerating := false,
                         statusEmoji := "❌",
                         error := some (orStrD r.error "Video generation failed") }
    else
      { s1 with statusEmoji := "⚙️" }
  | .notFound =>
    let rc := rcGet s.retryCount jobId + 1
    let s1 : AppState := { s with retryCount := rcSet s.retryCount jobId rc }
    if MAX_RETRIES ≤ rc then
      let s2 : AppState :=
        { s1 with job := s1.job.map (fun prev =>
            { prev with status := "processing", openAiStatus := some finalizingMsg }) }
      match s.pollingInterval with
      | some t =>
        { s2 with activeTimers := removeTimer s.activeTimers t ++ [⟨s.nextTimerId, 5000, jobId⟩]
                  pollingInterval := some s.nextTimerId
                  nextTimerId := s.nextTimerId + 1
                  isLoading := false }
      | none => { s2 with isLoading := false }
    else
      { s1 with pendingRetries := s1.pendingRetries ++ [⟨RETRY_DELAY, jobId⟩]
                isLoading := false }
  | .err message =>
    { s with job := s.job.map (fun prev =>
               { prev with error := some (orStrD message "Failed to check job status") }),
             pollingInterval := none,
             isLoading := false }

/-- Embedding of `startJobPolling` of the part_000 variant: clear any
existing interval, store the provisional job stamped with the job id and the
captured form values, and start a two-second recurring interval. -/
def startJobPolling (s : AppState) (jobId : String) (initialJob : VideoJob)
    (v : FormValues) (now : String) : AppState :=
  let s1 := clearRef s
  let jobFull : VideoJob :=
    { initialJob with
      id := jobId
      status := "pending"
      prompt := v.prompt
      duration := v.duration
      resolution := v.resolution
      createdAt := now
      progress := some 0
      generationDetails :=
        some { prompt := v.prompt, duration := v.duration,
               resolution := v.resolution, createdAt := now } }
  { s1 with job := some jobFull
            activeTimers := s1.activeTimers ++ [⟨s1.nextTimerId, 2000, jobId⟩]
            pollingInterval := some s1.nextTimerId
            nextTimerId := s1.nextTimerId + 1 }

/-- Provisional job constructed by `handleSubmit` before the create request
is sent. -/
def initialJobFor (v : FormValues) (now : String) : VideoJob :=
  { id := ""
    status := "pending"
    openAiStatus := some "Sending request to OpenAI..."
    progress := some 0
    prompt := v.prompt
    duration := v.duration
    resolution := v.resolution
    createdAt := now
    generationDetails :=
      some { prompt := v.prompt, duration := v.duration,
             resolution := v.resolution, createdAt := now } }

/-- Failure tail of the `handleSubmit` catch clause of the part_000 variant:
surface the error, mark the failure emoji, stop the loading flag, and stamp
the error onto the retained provisional job. -/
def submitFailure (s : AppState) (errorMsg : String) : AppState :=
  { s with error := some errorMsg
           statusEmoji := "❌"
           isLoading := false
           job := s.job.map (fun prev =>
             { prev with openAiStatus := some ("Error: " ++ errorMsg) }) }

/-- Embedding of `handleSubmit` of the part_000 variant.  The provisional
job is stored first; a response whose id is truthy starts the poll loop with
the id, any other outcome (a rejected request, or a response without a
truthy id, which the source turns into a thrown error) takes the failure
tail with the message computed by the catch clause. -/
def handleSubmit (s : AppState) (v : FormValues) (o : CreateOutcome) (now : String) :
    AppState :=
  let s1 : AppState :=
    { s with isLoading := true, isGenerating := true, error := none,
             statusEmoji := "🔄", job := some (initialJobFor v now) }
  match o with
  | .ok r =>
    if truthyStr r.id then
      startJobPolling s1 (r.id.getD "")
        { initialJobFor v now with
            openAiStatus := some "Request received. Processing video generation..." } v now
    else
      submitFailure s1 "No job ID received in response"
  | .err detail message =>
    submitFailure s1 (orStrD detail (orStrD message "Failed to start video generation"))

/-- Embedding of the catch clause of the inline `poll` closure of the App
variant, reached for every rejected poll request, a 404 included: it
surfaces the error on the component error state, clears the interval when
the ref is non-null, and leaves the job record untouched. -/
def pollAppError (s : AppStateX) (detail : Option String) (message : Option String) :
    AppStateX :=
  let errorMessage := orStrD message "Unknown error"
  let errorMsg := orStrD detail (orStrD (some errorMessage) "Failed to check job status")
  let s1 : AppStateX :=
    { s with error := some ("Error: " ++ errorMsg)
             statusEmoji := "❌"
             openAiStatusMsg := "Failed to check job status" }
  let s2 : AppStateX :=
    match s1.pollingInterval with
    | some t => { s1 with activeTimers := removeTimer s1.activeTimers t,
                          pollingInterval := none }
    | none => s1
  { s2 with isLoading := false }

/-- An asynchronous event of the part_000 poll loop: a tick of a recurring
interval identified by its handle, or the firing of the scheduled one-off
retry at a given index; each event carries the outcome the backend would
return for the poll request it issues. -/
inductive PollEvent where
  | tick (timerId : Nat) (o : PollOutcome)
  | fire (idx : Nat) (o : PollOutcome)
deriving DecidableEq

/-- A tick of a recurring interval: it invokes the poll callback and counts
one issued poll request only when the interval is still running. -/
def fireTick (s : AppState) (timerId : Nat) (o : PollOutcome) : AppState × Nat :=
  match s.activeTimers.find? (fun tm => tm.id == timerId) with
  | some tm => (checkJobStatus s tm.jobId o, 1)
  | none => (s, 0)

/-- Firing of a scheduled one-off retry: it is consumed, invokes the poll
callback and counts one issued poll request only when it is still pending. -/
def fireRetry (s : AppState) (idx : Nat) (o : PollOutcome) : AppState × Nat :=
  match s.pendingRetries.get? idx with
  | some task =>
    (checkJobStatus { s with pendingRetries := s.pendingRetries.eraseIdx idx } task.jobId o, 1)
  | none => (s, 0)

/-- One asynchronous poll-loop event. -/
def pollStep (s : AppState) (e : PollEvent) : AppState × Nat :=
  match e with
  | .tick t o => fireTick s t o
  | .fire i o => fireRetry s i o

/-- Run a sequence of asynchronous poll-loop events, counting the poll
requests issued. -/
def runPolls (s : AppState) : List PollEvent → AppState × Nat
  | [] => (s, 0)
  | e :: es =>
    let r1 := pollStep s e
    let r2 := runPolls r1.1 es
    (r2.1, r1.2 + r2.2)

/-- Event sequences made of recurring-interval ticks only, with no one-off
retry firing. -/
def ticksOnly : List PollEvent → Bool
  | [] => true
  | PollEvent.tick _ _ :: es => ticksOnly es
  | PollEvent.fire _ _ :: _ => false

/-- Duration bounds shared by both variants. -/
def MIN_VIDEO_DURATION : Int := 1

/-- Upper duration bound shared by both variants. -/
def MAX_VIDEO_DURATION : Int := 10

/-- Resolution allow-list of the part_000 variant. -/
def supportedResolutions : List String :=
  ["480x480", "480x854", "854x480", "720x720", "1080x1080"]

/-- Resolution allow-list of the App variant. -/
def supportedResolutionsApp : List String :=
  ["480x480", "480x854", "854x480", "720x720", "1080x1080", "1080x1920", "1920x1080"]

/-- Prompt validator shared by both variants: the trimmed prompt must be
nonempty. -/
def validatePrompt (value : String) : Option String :=
  if (jsTrim value).length > 0 then none else some "Prompt is required"

/-- Duration validator shared by both variants. -/
def validateDuration (value : Int) : Option String :=
  if MIN_VIDEO_DURATION ≤ value ∧ value ≤ MAX_VIDEO_DURATION then none
  else some "Duration must be between 1 and 10 seconds"

/-- Resolution validator of the part_000 variant: membership in its
allow-list. -/
def validateResolution (value : String) : Option String :=
  if supportedResolutions.contains value then none
  else some "Please select a valid resolution"

/-- Form-level validation of the part_000 variant: all three validators. -/
def formValidates (v : FormValues) : Bool :=
  (validatePrompt v.prompt).isNone && (validateDuration v.duration).isNone
    && (validateResolution v.resolution).isNone

/-- Form-level validation of the App variant, which has validators only for
the prompt and the duration. -/
def formValidatesApp (v : FormValues) : Bool :=
  (validatePrompt v.prompt).isNone && (validateDuration v.duration).isNone

/-- Number of create requests sent by one submit attempt in the part_000
variant: the form library runs the submit handler only when validation
passes, and the handler sends exactly one create request. -/
def submitRequestCount (v : FormValues) : Nat :=
  if formValidates v then 1 else 0

/-- Number of create requests sent by one submit attempt in the App
variant. -/
def submitRequestCountApp (v : FormValues) : Nat :=
  if formValidatesApp v then 1 else 0

/-- Initial component state of the part_000 variant. -/
def initialAppState : AppState := {}

/-- Example job with a known status and progress, used as concrete input. -/
def exJob0 : VideoJob := { id := "job-1", status := "pending", progress := some 40 }

/-- Example job in the processing state, used as concrete input. -/
def exJobP : VideoJob := { id := "job-1", status := "processing", progress := some 40 }

/-- Example App-variant job in the processing state. -/
def exJobAppP : VideoJobApp := { id := "job-1", status := "processing", progress := some 40 }

/-- Example poll response carrying only a progress field. -/
def exResp55 : PollResponse := { progress := some 55 }

/-- Example completed poll response with a result video url. -/
def exRespDone : PollResponse :=
  { status := some "completed", result := some { video_url := some "https://x/y.mp4" } }

/-- Example part_000 component state with one running two-second interval
whose handle is stored in the ref, polling job-1, and a zero retry count. -/
def exS0 : AppState :=
  { job := some exJob0, isLoading := true, pollingInterval := some 3,
    activeTimers := [⟨3, 2000, "job-1"⟩], nextTimerId := 4 }

/-- Example part_000 component state whose job has already seen four
consecutive not-found responses. -/
def exS4 : AppState := { exS0 with retryCount := [("job-1", 4)] }

/-- Example part_000 component state reached from `exS0` by one
sub-threshold not-found poll: the two-second interval is still running and
the scheduled one-off retry is pending. -/
def exSRetry : AppState := checkJobStatus exS0 "job-1" PollOutcome.notFound

/-- Example part_000 component state after cancellation: the interval has
been cleared, yet a poll response is still in flight for job-1. -/
def exStale : AppState :=
  { job := some exJobP, pollingInterval := none, activeTimers := [], nextTimerId := 4 }

/-- Example App-variant component state with one running two-second
interval polling job-1. -/
def exSX : AppStateX :=
  { job := some { id := "job-1", status := "pending", progress := some 0 },
    isLoading := true, pollingInterval := some 3,
    activeTimers := [⟨3, 2000, "job-1"⟩], nextTimerId := 4 }

/-- Example valid form values. -/
def exFormOk : FormValues :=
  { prompt := "cat on a skateboard", duration := 5, resolution := "854x480" }

/-- Job record produced by a successful submission (the provisional job as
stamped by the poll-loop start). -/
def startedJob (v : FormValues) (idv now : String) : VideoJob :=
  { id := idv
    status := "pending"
    openAiStatus := some "Request received. Processing video generation..."
    progress := some 0
    prompt := v.prompt
    duration := v.duration
    resolution := v.resolution
    createdAt := now
    generationDetails :=
      some { prompt := v.prompt, duration := v.duration,
             resolution := v.resolution, createdAt := now } }

/-! Helper lemmas. -/

/-- Reading back a just-stored retry counter. -/
theorem rcGet_rcSet (m : List (String × Nat)) (k : String) (v : Nat) :
    rcGet (rcSet m k v) k = v := by
  induction m with
  | nil => simp [rcGet, rcSet, List.find?]
  | cons p rest ih =>
    by_cases h : p.1 = k
    · simp [rcGet, rcSet, List.find?, h]
    · have hb : (p.1 == k) = false := by simp [h]
      simp only [rcSet, hb, Bool.false_eq_true, if_false]
      simp only [rcGet, List.find?, hb] at ih ⊢
      exact ih

/-- Clearing the ref does not touch the job record. -/
theorem clearRef_job (s : AppState) : (clearRef s).job = s.job := by
  unfold clearRef; cases s.pollingInterval <;> rfl

/-- Clearing the ref does not touch the retry counters. -/
theorem clearRef_retryCount (s : AppState) : (clearRef s).retryCount = s.retryCount := by
  unfold clearRef; cases s.pollingInterval <;> rfl

/-- Clearing the ref does not touch the scheduled one-off retries. -/
theorem clearRef_pendingRetries (s : AppState) :
    (clearRef s).pendingRetries = s.pendingRetries := by
  unfold clearRef; cases s.pollingInterval <;> rfl

/-- Clearing the ref does not touch the timer-handle counter. -/
theorem clearRef_nextTimerId (s : AppState) : (clearRef s).nextTimerId = s.nextTimerId := by
  unfold clearRef; cases s.pollingInterval <;> rfl

/-- Clearing the ref does not touch the component error. -/
theorem clearRef_error (s : AppState) : (clearRef s).error = s.error := by
  unfold clearRef; cases s.pollingInterval <;> rfl

/-- When the only running timers are the one held by the ref, the clearing
idiom stops every running timer and nulls the ref. -/
theorem clearRef_clears (s : AppState)
    (hinv : ∀ tm ∈ s.activeTimers, s.pollingInterval = some tm.id) :
    (clearRef s).activeTimers = [] ∧ (clearRef s).pollingInterval = none := by
  unfold clearRef
  cases h : s.pollingInterval with
  | none =>
    have hempty : s.activeTimers = [] := by
      cases hl : s.activeTimers with
      | nil => rfl
      | cons tm l =>
        have hmem := hinv tm (by rw [hl]; exact List.mem_cons_self tm l)
        rw [h] at hmem
        exact absurd hmem (by simp)
    exact ⟨hempty, h⟩
  | some t =>
    refine ⟨?_, rfl⟩
    simp only [removeTimer]
    apply List.filter_eq_nil_iff.mpr
    intro tm hm
    have := hinv tm hm
    rw [h] at this
    have : t = tm.id := Option.some_injective _ this
    simp [this]

/-- A state with no running timer and no pending retry processes every
asynchronous event as a no-op and issues no poll request. -/
theorem runPolls_quiescent (es : List PollEvent) (s : AppState)
    (h1 : s.activeTimers = []) (h2 : s.pendingRetries = []) :
    runPolls s es = (s, 0) := by
  induction es with
  | nil => rfl
  | cons e es ih =>
    have hstep : pollStep s e = (s, 0) := by
      cases e with
      | tick t o => simp [pollStep, fireTick, h1, List.find?]
      | fire i o => simp [pollStep, fireRetry, h2, List.get?]
    simp [runPolls, hstep, ih]

/-- The job stored after a successful poll response is always the field-wise
merge of the previous job with the response, whatever the timer situation. -/
theorem checkJobStatus_ok_job (s : AppState) (jobId : String) (r : PollResponse) :
    (checkJobStatus s jobId (.ok r)).job = s.job.map (fun prev => mergeJob prev r) := by
  unfold checkJobStatus
  by_cases h1 : r.status = some "completed"
  · simp [h1, clearRef_job]
  · by_cases h2 : r.status = some "failed"
    · simp [h1, h2, clearRef_job]
    · simp [h1, h2]

/-- Character-wise lowercasing distributes over string append. -/
theorem jsToLower_append (a b : String) : jsToLower (a ++ b) = jsToLower a ++ jsToLower b := by
  apply String.ext
  simp [jsToLower, String.toList, String.data_append]

/-- Lowercasing the underscore separator is the identity. -/
theorem jsToLower_underscore : jsToLower "_" = "_" := by decide

/-- C2 (counterexample): the claim asserts that characters outside the safe
class are stripped, so that the prompt Hello, World!! derives the filename
hello_world.mp4; the source instead replaces each such character by an
underscore, so the derived filename differs. -/
theorem claim2_counterexample :
    getVideoFilename "Hello, World!!" ≠ "hello_world.mp4" ∧
    getVideoFilename "Hello, World!!" = "hello__world__.mp4" := by decide

/-- C2 (amended): the filename derivation is pure and, for every prompt,
takes the first two whitespace-separated tokens, lowercases them, joins them
with an underscore, replaces every character outside the safe class by an
underscore (rather than stripping it), and appends the mp4 suffix, using the
literal name video when the prompt yields no tokens; the first two examples
of the claim hold and the third derives hello__world__.mp4. -/
theorem claim2_amended :
    (∀ p, getVideoFilename p = deriveFilenameSpec p) ∧
    getVideoFilename "A beautiful sunset" = "a_beautiful.mp4" ∧
    getVideoFilename "" = "video.mp4" ∧
    getVideoFilename "Hello, World!!" = "hello__world__.mp4" := by
  refine ⟨fun p => ?_, by decide, by decide, by decide⟩
  unfold getVideoFilename deriveFilenameSpec
  cases h : promptWords p with
  | nil =>
    simp only [h]
    decide
  | cons a rest =>
    cases rest with
    | nil => simp [h, joinWith]
    | cons b rest2 =>
      simp [h, joinWith, jsToLower_append, jsToLower_underscore]

/-- C3: the merge of a poll response into the local job record is field-wise
and additive in both variants: every field absent from the response retains
its previously known value, a present progress value overwrites, and the
fields never produced by poll responses are always retained. -/
theorem claim3_merge_additive (prev : VideoJob) (prevA : VideoJobApp) (r : PollResponse)
    (origin : String) (now : Nat) :
    (r.status = none → (mergeJob prev r).status = prev.status ∧
      (mergeJobApp prevA r origin now).status = prevA.status) ∧
    (r.progress = none → (mergeJob prev r).progress = prev.progress ∧
      (mergeJobApp prevA r origin now).progress = prevA.progress) ∧
    (r.error = none → (mergeJob prev r).error = prev.error ∧
      (mergeJobApp prevA r origin now).error = prevA.error) ∧
    (r.openai_status = none → (mergeJob prev r).openAiStatus = prev.openAiStatus ∧
      (mergeJobApp prevA r origin now).openAiStatus = prevA.openAiStatus) ∧
    (r.openai_response = none → (mergeJob prev r).openAiResponse = prev.openAiResponse ∧
      (mergeJobApp prevA r origin now).openAiResponse = prevA.openAiResponse) ∧
    (r.result = none → (mergeJob prev r).result = prev.result ∧
      (mergeJob prev r).videoUrl = prev.videoUrl ∧
      (mergeJobApp prevA r origin now).videoUrl = prevA.videoUrl) ∧
    (∀ q, r.progress = some q → (mergeJob prev r).progress = some q) ∧
    (mergeJob prev r).id = prev.id ∧
    (mergeJob prev r).prompt = prev.prompt ∧
    (mergeJob prev r).duration = prev.duration ∧
    (mergeJob prev r).resolution = prev.resolution ∧
    (mergeJob prev r).generationDetails = prev.generationDetails := by
  refine ⟨fun h => ?_, fun h => ?_, fun h => ?_, fun h => ?_, fun h => ?_, fun h => ?_,
         fun q h => ?_, rfl, rfl, rfl, rfl, rfl⟩ <;>
    simp [mergeJob, mergeJobApp, orStr, orStrD, orObj, truthyStr, appVideoUrl, h]

/-- Witness for C3 at the concrete example of the claim: merging a response
carrying only progress 55 into a processing job at progress 40 retains the
status and updates the progress. -/
theorem claim3_merge_additive_witness :
    exResp55.status = none ∧
    (mergeJob exJobP exResp55).status = "processing" ∧
    (mergeJob exJobP exResp55).progress = some 55 := by
  have h := claim3_merge_additive exJobP exJobAppP exResp55 "origin" 0
  exact ⟨rfl, (h.1 rfl).1, h.2.2.2.2.2.2.1 55 rfl⟩

/-- C10: the merge treats fields asymmetrically by presence versus
truthiness in both variants: an explicit progress of zero overwrites, while
an explicit empty-string status or error leaves the previous value. -/
theorem claim10_merge_truthiness (prev : VideoJob) (prevA : VideoJobApp) (r : PollResponse)
    (origin : String) (now : Nat) :
    (∀ q, r.progress = some q → (mergeJob prev r).progress = some q ∧
      (mergeJobApp prevA r origin now).progress = some q) ∧
    (r.status = some "" → (mergeJob prev r).status = prev.status ∧
      (mergeJobApp prevA r origin now).status = prevA.status) ∧
    (r.error = some "" → (mergeJob prev r).error = prev.error ∧
      (mergeJobApp prevA r origin now).error = prevA.error) := by
  refine ⟨fun q h => ?_, fun h => ?_, fun h => ?_⟩ <;>
    simp [mergeJob, mergeJobApp, orStr, orStrD, truthyStr, h]

/-- Witness for C10 at concrete inputs: explicit progress zero overwrites
progress 40, while an explicit empty status or error is ignored. -/
theorem claim10_merge_truthiness_witness :
    (mergeJob exJobP { progress := some 0 }).progress = some 0 ∧
    (mergeJob exJobP { status := some "" }).status = "processing" ∧
    (mergeJob exJobP { error := some "" }).error = none := by
  have h1 := (claim10_merge_truthiness exJobP exJobAppP { progress := some 0 } "o" 0).1 0 rfl
  have h2 := (claim10_merge_truthiness exJobP exJobAppP { status := some "" } "o" 0).2.1 rfl
  have h3 := (claim10_merge_truthiness exJobP exJobAppP { error := some "" } "o" 0).2.2 rfl
  exact ⟨h1.1, h2.1, h3.1⟩

/-- Removing a timer handle held by every running timer empties the
environment. -/
theorem removeTimer_all (l : List Timer) (t : Nat) (h : ∀ tm ∈ l, tm.id = t) :
    removeTimer l t = [] := by
  simp only [removeTimer]
  apply List.filter_eq_nil_iff.mpr
  intro tm hm
  simp [h tm hm]

/-- C1 (counterexample): in the App variant the poll catch clause does not
special-case a 404: on the very first not-found response it surfaces an
error, clears the recurring interval, schedules no retry, and leaves the job
record untouched, contradicting the claim that below-threshold not-found
responses surface no error and schedule a two-second one-off retry. -/
theorem claim1_counterexample :
    (pollAppError exSX none (some "Request failed with status code 404")).error
        = some "Error: Request failed with status code 404" ∧
    (pollAppError exSX none (some "Request failed with status code 404")).activeTimers = [] ∧
    (pollAppError exSX none (some "Request failed with status code 404")).pollingInterval
        = none ∧
    (pollAppError exSX none (some "Request failed with status code 404")).job = exSX.job := by
  decide

/-- C1 (amended): in the part_000 variant, whose `checkJobStatus` implements
the not-found resilience, a not-found poll outcome below the threshold
schedules a one-off two-second retry, increments the per-job counter, and
leaves the job, the error, the emoji and the recurring interval untouched;
at the threshold the job status becomes processing with the finalizing
diagnostic, the counter still increments, and the recurring interval is
replaced by a five-second one, with no error surfaced. -/
theorem claim1_amended (s : AppState) (jobId : String) (j : VideoJob)
    (hj : s.job = some j)
    (hinv : ∀ tm ∈ s.activeTimers, s.pollingInterval = some tm.id) :
    (rcGet s.retryCount jobId + 1 < MAX_RETRIES →
      (checkJobStatus s jobId .notFound).pendingRetries
          = s.pendingRetries ++ [⟨RETRY_DELAY, jobId⟩] ∧
      rcGet (checkJobStatus s jobId .notFound).retryCount jobId
          = rcGet s.retryCount jobId + 1 ∧
      (checkJobStatus s jobId .notFound).job = some j ∧
      (checkJobStatus s jobId .notFound).error = s.error ∧
      (checkJobStatus s jobId .notFound).statusEmoji = s.statusEmoji ∧
      (checkJobStatus s jobId .notFound).activeTimers = s.activeTimers ∧
      (checkJobStatus s jobId .notFound).pollingInterval = s.pollingInterval) ∧
    (MAX_RETRIES ≤ rcGet s.retryCount jobId + 1 → ∀ t, s.pollingInterval = some t →
      (checkJobStatus s jobId .notFound).job
          = some { j with status := "processing", openAiStatus := some finalizingMsg } ∧
      rcGet (checkJobStatus s jobId .notFound).retryCount jobId
          = rcGet s.retryCount jobId + 1 ∧
      (checkJobStatus s jobId .notFound).activeTimers = [⟨s.nextTimerId, 5000, jobId⟩] ∧
      (checkJobStatus s jobId .notFound).pollingInterval = some s.nextTimerId ∧
      (checkJobStatus s jobId .notFound).error = s.error ∧
      (checkJobStatus s jobId .notFound).statusEmoji = s.statusEmoji ∧
      (checkJobStatus s jobId .notFound).pendingRetries = s.pendingRetries) := by
  constructor
  · intro hlt
    have hnot : ¬ MAX_RETRIES ≤ rcGet s.retryCount jobId + 1 := by omega
    simp only [checkJobStatus, hnot, if_false]
    simp [rcGet_rcSet, hj]
  · intro hge t ht
    have htimers : removeTimer s.activeTimers t = [] := by
      apply removeTimer_all
      intro tm hm
      have := hinv tm hm
      rw [ht] at this
      exact (Option.some_injective _ this).symm
    simp only [checkJobStatus, hge, if_true, ht, htimers]
    simp [rcGet_rcSet, hj]

/-- Witness for C1 (amended) at concrete states: with a zero counter the
retry is scheduled and nothing else changes, and with a counter at four the
fifth not-found downgrades the cadence to five seconds and rewrites the job
status. -/
theorem claim1_amended_witness :
    (checkJobStatus exS0 "job-1" .notFound).pendingRetries
        = exS0.pendingRetries ++ [⟨RETRY_DELAY, "job-1"⟩] ∧
    (checkJobStatus exS0 "job-1" .notFound).job = some exJob0 ∧
    (checkJobStatus exS4 "job-1" .notFound).activeTimers = [⟨exS4.nextTimerId, 5000, "job-1"⟩] ∧
    (checkJobStatus exS4 "job-1" .notFound).job
        = some { exJob0 with status := "processing", openAiStatus := some finalizingMsg } := by
  have h0 := claim1_amended exS0 "job-1" exJob0 rfl (by decide)
  have h4 := claim1_amended exS4 "job-1" exJob0 rfl (by decide)
  have ha := h0.1 (by decide)
  have hb := h4.2 (by decide) 3 rfl
  exact ⟨ha.1, ha.2.2.1, hb.2.2.1, hb.1⟩

/-- A completed poll response leaves a state with no running timer, the null
ref, the download modal open, the success emoji, the loading flag down and
the pending retries untouched. -/
theorem checkJobStatus_completed_state (s : AppState) (jobId : String) (r : PollResponse)
    (hinv : ∀ tm ∈ s.activeTimers, s.pollingInterval = some tm.id)
    (hc : r.status = some "completed") :
    (checkJobStatus s jobId (.ok r)).activeTimers = [] ∧
    (checkJobStatus s jobId (.ok r)).pollingInterval = none ∧
    (checkJobStatus s jobId (.ok r)).showDownloadModal = true ∧
    (checkJobStatus s jobId (.ok r)).statusEmoji = "✅" ∧
    (checkJobStatus s jobId (.ok r)).isLoading = false ∧
    (checkJobStatus s jobId (.ok r)).pendingRetries = s.pendingRetries := by
  have hcl := clearRef_clears
    { s with retryCount := rcSet s.retryCount jobId 0,
             job := s.job.map (fun prev => mergeJob prev r) } hinv
  simp only [checkJobStatus, hc]
  simp [hcl.1, hcl.2, clearRef_pendingRetries]

/-- A failed poll response leaves a state with no running timer, the null
ref, the failure emoji, the surfaced error with its generic fallback, the
loading flag down and the pending retries untouched. -/
theorem checkJobStatus_failed_state (s : AppState) (jobId : String) (r : PollResponse)
    (hinv : ∀ tm ∈ s.activeTimers, s.pollingInterval = some tm.id)
    (hf : r.status = some "failed") :
    (checkJobStatus s jobId (.ok r)).activeTimers = [] ∧
    (checkJobStatus s jobId (.ok r)).pollingInterval = none ∧
    (checkJobStatus s jobId (.ok r)).statusEmoji = "❌" ∧
    (checkJobStatus s jobId (.ok r)).isLoading = false ∧
    (checkJobStatus s jobId (.ok r)).error
        = some (orStrD r.error "Video generation failed") ∧
    (checkJobStatus s jobId (.ok r)).pendingRetries = s.pendingRetries := by
  have hcl := clearRef_clears
    { s with retryCount := rcSet s.retryCount jobId 0,
             job := s.job.map (fun prev => mergeJob prev r) } hinv
  simp only [checkJobStatus, hf]
  simp [hcl.1, hcl.2, clearRef_pendingRetries]

/-- A sequence of recurring-interval ticks is a no-op on a state with no
running timer, whatever one-off retries are still pending. -/
theorem runPolls_ticks_quiescent (es : List PollEvent) (s : AppState)
    (h1 : s.activeTimers = []) (hto : ticksOnly es = true) :
    runPolls s es = (s, 0) := by
  induction es with
  | nil => rfl
  | cons e es ih =>
    cases e with
    | tick t o =>
      have hstep : pollStep s (.tick t o) = (s, 0) := by
        simp [pollStep, fireTick, h1, List.find?]
      have hto2 : ticksOnly es = true := by simpa [ticksOnly] using hto
      simp [runPolls, hstep, ih hto2]
    | fire i o => simp [ticksOnly] at hto

/-- C4 (counterexample): a one-off retry scheduled by a sub-threshold
not-found poll is never cancelled.  From the example state, one not-found
poll schedules the two-second retry while the recurring interval keeps
running; a completed response then clears the interval and opens the
download modal, yet the pending retry survives the terminal transition and
still fires afterwards, issuing one further poll request — refuting the
claim that no further poll requests are issued after a terminal response. -/
theorem claim4_counterexample :
    exSRetry.pendingRetries = [⟨RETRY_DELAY, "job-1"⟩] ∧
    exSRetry.activeTimers = [⟨3, 2000, "job-1"⟩] ∧
    (checkJobStatus exSRetry "job-1" (.ok exRespDone)).activeTimers = [] ∧
    (checkJobStatus exSRetry "job-1" (.ok exRespDone)).pollingInterval = none ∧
    (checkJobStatus exSRetry "job-1" (.ok exRespDone)).showDownloadModal = true ∧
    (checkJobStatus exSRetry "job-1" (.ok exRespDone)).pendingRetries
        = [⟨RETRY_DELAY, "job-1"⟩] ∧
    (runPolls (checkJobStatus exSRetry "job-1" (.ok exRespDone))
        [.fire 0 (.ok exRespDone)]).2 = 1 := by decide

/-- C4 (amended): processing a poll response carrying a terminal status
clears the recurring interval, so the recurring cadence issues no further
poll request: on completed the state shows the completed outcome with the
download modal open and the merged job carries the completed status and the
result video url; on failed the failure is surfaced with the generic
fallback message when the response omitted an error.  When no one-off
not-found retry is pending, no further poll request of any kind is issued;
a pending one-off retry, however, is not cancelled by the terminal
transition and still fires, issuing one further poll request. -/
theorem claim4_amended (s : AppState) (jobId : String) (r : PollResponse)
    (hinv : ∀ tm ∈ s.activeTimers, s.pollingInterval = some tm.id) :
    (r.status = some "completed" →
      (checkJobStatus s jobId (.ok r)).activeTimers = [] ∧
      (checkJobStatus s jobId (.ok r)).pollingInterval = none ∧
      (checkJobStatus s jobId (.ok r)).showDownloadModal = true ∧
      (checkJobStatus s jobId (.ok r)).statusEmoji = "✅" ∧
      (checkJobStatus s jobId (.ok r)).isLoading = false ∧
      (checkJobStatus s jobId (.ok r)).job = s.job.map (fun prev => mergeJob prev r) ∧
      (∀ prev, s.job = some prev → (mergeJob prev r).status = "completed" ∧
        (truthyStr (r.result.bind ResultPayload.video_url) = true →
          (mergeJob prev r).videoUrl = r.result.bind ResultPayload.video_url)) ∧
      (checkJobStatus s jobId (.ok r)).pendingRetries = s.pendingRetries ∧
      (∀ es, ticksOnly es = true →
        (runPolls (checkJobStatus s jobId (.ok r)) es).2 = 0) ∧
      (s.pendingRetries = [] →
        ∀ es, (runPolls (checkJobStatus s jobId (.ok r)) es).2 = 0) ∧
      (∀ idx task o, s.pendingRetries.get? idx = some task →
        (fireRetry (checkJobStatus s jobId (.ok r)) idx o).2 = 1)) ∧
    (r.status = some "failed" →
      (checkJobStatus s jobId (.ok r)).activeTimers = [] ∧
      (checkJobStatus s jobId (.ok r)).pollingInterval = none ∧
      (checkJobStatus s jobId (.ok r)).statusEmoji = "❌" ∧
      (checkJobStatus s jobId (.ok r)).isLoading = false ∧
      (checkJobStatus s jobId (.ok r)).error
          = some (orStrD r.error "Video generation failed") ∧
      (∀ prev, s.job = some prev → (mergeJob prev r).status = "failed") ∧
      (checkJobStatus s jobId (.ok r)).pendingRetries = s.pendingRetries ∧
      (∀ es, ticksOnly es = true →
        (runPolls (checkJobStatus s jobId (.ok r)) es).2 = 0) ∧
      (s.pendingRetries = [] →
        ∀ es, (runPolls (checkJobStatus s jobId (.ok r)) es).2 = 0) ∧
      (∀ idx task o, s.pendingRetries.get? idx = some task →
        (fireRetry (checkJobStatus s jobId (.ok r)) idx o).2 = 1)) := by
  constructor
  · intro hc
    obtain ⟨h1, h2, h3, h4, h5, h6⟩ := checkJobStatus_completed_state s jobId r hinv hc
    refine ⟨h1, h2, h3, h4, h5, checkJobStatus_ok_job s jobId r, ?_, h6, ?_, ?_, ?_⟩
    · intro prev _
      constructor
      · simp [mergeJob, orStrD, hc]
      · intro htr
        simp [mergeJob, orStr, htr]
    · intro es hto
      simp [runPolls_ticks_quiescent es _ h1 hto]
    · intro hp es
      simp [runPolls_quiescent es _ h1 (by rw [h6, hp])]
    · intro idx task o hidx
      have hidx2 : s.pendingRetries[idx]? = some task := by
        rw [← List.get?_eq_getElem?]
        exact hidx
      simp [fireRetry, h6, hidx2]
  · intro hf
    obtain ⟨h1, h2, h3, h4, h5, h6⟩ := checkJobStatus_failed_state s jobId r hinv hf
    refine ⟨h1, h2, h3, h4, h5, ?_, h6, ?_, ?_, ?_⟩
    · intro prev _
      simp [mergeJob, orStrD, hf]
    · intro es hto
      simp [runPolls_ticks_quiescent es _ h1 hto]
    · intro hp es
      simp [runPolls_quiescent es _ h1 (by rw [h6, hp])]
    · intro idx task o hidx
      have hidx2 : s.pendingRetries[idx]? = some task := by
        rw [← List.get?_eq_getElem?]
        exact hidx
      simp [fireRetry, h6, hidx2]

/-- Witness for C4 (amended) at concrete states: with nothing pending, a
completed response clears the timer, opens the download modal and no event
issues another poll; with the one-off retry pending, the recurring ticks
stay quiescent but the surviving retry still issues one request. -/
theorem claim4_amended_witness :
    (checkJobStatus exS0 "job-1" (.ok exRespDone)).activeTimers = [] ∧
    (checkJobStatus exS0 "job-1" (.ok exRespDone)).showDownloadModal = true ∧
    (mergeJob exJob0 exRespDone).status = "completed" ∧
    (runPolls (checkJobStatus exS0 "job-1" (.ok exRespDone))
        [.tick 3 (.ok exResp55)]).2 = 0 ∧
    (runPolls (checkJobStatus exSRetry "job-1" (.ok exRespDone))
        [.tick 3 (.ok exResp55)]).2 = 0 ∧
    (fireRetry (checkJobStatus exSRetry "job-1" (.ok exRespDone))
        0 (.ok exResp55)).2 = 1 := by
  have h := (claim4_amended exS0 "job-1" exRespDone (by decide)).1 rfl
  have h2 := (claim4_amended exSRetry "job-1" exRespDone (by decide)).1 rfl
  obtain ⟨c1, c2, c3, c4, c5, c6, c7, c8, c9, c10, c11⟩ := h
  obtain ⟨d1, d2, d3, d4, d5, d6, d7, d8, d9, d10, d11⟩ := h2
  exact ⟨c1, c3, (c7 exJob0 rfl).1, c9 _ rfl, d9 _ rfl,
    d11 0 ⟨RETRY_DELAY, "job-1"⟩ (.ok exResp55) (by decide)⟩

/-- Starting the poll loop from a consistent timer state leaves exactly the
new two-second interval running, with its handle in the ref. -/
theorem startJobPolling_spec (s : AppState) (jobId : String) (ij : VideoJob)
    (v : FormValues) (now : String)
    (hinv : ∀ tm ∈ s.activeTimers, s.pollingInterval = some tm.id) :
    (startJobPolling s jobId ij v now).activeTimers = [⟨s.nextTimerId, 2000, jobId⟩] ∧
    (startJobPolling s jobId ij v now).pollingInterval = some s.nextTimerId := by
  have hc := clearRef_clears s hinv
  unfold startJobPolling
  simp [hc.1, hc.2, clearRef_nextTimerId]

/-- A submission whose create response carries a truthy id leaves exactly
one running two-second interval for that id, with its handle in the ref. -/
theorem handleSubmit_ok_timers (s : AppState) (v : FormValues) (idv now : String)
    (hid : idv ≠ "")
    (hinv : ∀ tm ∈ s.activeTimers, s.pollingInterval = some tm.id) :
    (handleSubmit s v (.ok { id := some idv }) now).activeTimers
        = [⟨s.nextTimerId, 2000, idv⟩] ∧
    (handleSubmit s v (.ok { id := some idv }) now).pollingInterval
        = some s.nextTimerId := by
  have ht : truthyStr (some idv) = true := by simp [truthyStr, hid]
  have hs := startJobPolling_spec
    { s with isLoading := true, isGenerating := true, error := none,
             statusEmoji := "🔄", job := some (initialJobFor v now) } idv
    { initialJobFor v now with
        openAiStatus := some "Request received. Processing video generation..." } v now hinv
  unfold handleSubmit
  simp only [ht, if_true]
  simpa using hs

/-- C5: at most one recurring poll timer is active at a time: starting the
poll loop cancels the previously stored interval first, so two submissions
in immediate succession leave exactly one running interval, whose handle is
the one stored in the ref. -/
theorem claim5_single_timer (s : AppState) (v1 v2 : FormValues) (id1 id2 n1 n2 : String)
    (h1 : id1 ≠ "") (h2 : id2 ≠ "")
    (hinv : ∀ tm ∈ s.activeTimers, s.pollingInterval = some tm.id) :
    (handleSubmit s v1 (.ok { id := some id1 }) n1).activeTimers.length = 1 ∧
    (handleSubmit (handleSubmit s v1 (.ok { id := some id1 }) n1) v2
        (.ok { id := some id2 }) n2).activeTimers.length = 1 ∧
    ∀ tm ∈ (handleSubmit (handleSubmit s v1 (.ok { id := some id1 }) n1) v2
        (.ok { id := some id2 }) n2).activeTimers,
      (handleSubmit (handleSubmit s v1 (.ok { id := some id1 }) n1) v2
        (.ok { id := some id2 }) n2).pollingInterval = some tm.id := by
  obtain ⟨ha1, hp1⟩ := handleSubmit_ok_timers s v1 id1 n1 h1 hinv
  have hinv1 : ∀ tm ∈ (handleSubmit s v1 (.ok { id := some id1 }) n1).activeTimers,
      (handleSubmit s v1 (.ok { id := some id1 }) n1).pollingInterval = some tm.id := by
    intro tm hm
    rw [ha1] at hm
    rw [hp1]
    rcases List.mem_singleton.mp hm with rfl
    rfl
  obtain ⟨ha2, hp2⟩ := handleSubmit_ok_timers _ v2 id2 n2 h2 hinv1
  refine ⟨by simp [ha1], by simp [ha2], ?_⟩
  intro tm hm
  rw [ha2] at hm
  rw [hp2]
  rcases List.mem_singleton.mp hm with rfl
  rfl

/-- Witness for C5: submitting twice in succession from the initial state
leaves exactly one running poll interval. -/
theorem claim5_single_timer_witness :
    (handleSubmit (handleSubmit initialAppState exFormOk (.ok { id := some "job-1" }) "T0")
        exFormOk (.ok { id := some "job-1" }) "T1").activeTimers.length = 1 := by
  exact (claim5_single_timer initialAppState exFormOk exFormOk "job-1" "job-1" "T0" "T1"
    (by decide) (by decide) (by decide)).2.1

/-- C6 (evaluation of the defect): in the part_000 variant a non-404 poll
error records the message on the job and leaves the job status untouched as
the claim says, but the source nulls the interval ref without calling
clearInterval, so the recurring interval keeps running and a subsequent tick
of it still issues a poll request: the poll loop is not stopped. -/
theorem claim6_timer_not_cleared :
    (checkJobStatus exS0 "job-1"
        (.err (some "Request failed with status code 500"))).pollingInterval = none ∧
    (checkJobStatus exS0 "job-1"
        (.err (some "Request failed with status code 500"))).activeTimers
        = [⟨3, 2000, "job-1"⟩] ∧
    (checkJobStatus exS0 "job-1"
        (.err (some "Request failed with status code 500"))).job
        = some { exJob0 with error := some "Request failed with status code 500" } ∧
    ((checkJobStatus exS0 "job-1"
        (.err (some "Request failed with status code 500"))).job.map VideoJob.status)
        = some exJob0.status ∧
    (runPolls (checkJobStatus exS0 "job-1"
        (.err (some "Request failed with status code 500")))
        [.tick 3 (.ok exResp55)]).2 = 1 := by decide

/-- C7 (counterexample): in the App variant the form validates only the
prompt and the duration, so a submission with a resolution outside every
allow-list still passes validation and a create request is sent. -/
theorem claim7_counterexample :
    formValidatesApp { prompt := "hi", duration := 5, resolution := "999x999" } = true ∧
    submitRequestCountApp { prompt := "hi", duration := 5, resolution := "999x999" } = 1 ∧
    supportedResolutionsApp.contains "999x999" = false ∧
    supportedResolutions.contains "999x999" = false := by decide

/-- C7 (amended): validation fails closed for the prompt and the duration in
both variants, with durations one and ten accepted and zero and eleven
rejected, and no request is sent on a local rejection; a resolution outside
the allow-list is rejected only in the part_000 variant, the App variant
having no resolution validator. -/
theorem claim7_amended (v : FormValues) :
    ((jsTrim v.prompt).length = 0 →
      formValidates v = false ∧ submitRequestCount v = 0 ∧
      formValidatesApp v = false ∧ submitRequestCountApp v = 0) ∧
    (v.duration < MIN_VIDEO_DURATION ∨ MAX_VIDEO_DURATION < v.duration →
      formValidates v = false ∧ submitRequestCount v = 0 ∧
      formValidatesApp v = false ∧ submitRequestCountApp v = 0) ∧
    (supportedResolutions.contains v.resolution = false →
      formValidates v = false ∧ submitRequestCount v = 0) ∧
    validateDuration 1 = none ∧ validateDuration 10 = none ∧
    (validateDuration 0).isSome = true ∧ (validateDuration 11).isSome = true := by
  refine ⟨fun h => ?_, fun h => ?_, fun h => ?_, by decide, by decide, by decide, by decide⟩
  · have hp : validatePrompt v.prompt = some "Prompt is required" := by
      simp [validatePrompt, h]
    simp [formValidates, formValidatesApp, submitRequestCount, submitRequestCountApp, hp]
  · have hcond : ¬ (MIN_VIDEO_DURATION ≤ v.duration ∧ v.duration ≤ MAX_VIDEO_DURATION) := by
      simp only [MIN_VIDEO_DURATION, MAX_VIDEO_DURATION] at h ⊢
      omega
    have hd : validateDuration v.duration
        = some "Duration must be between 1 and 10 seconds" := by
      simp [validateDuration, hcond]
    simp [formValidates, formValidatesApp, submitRequestCount, submitRequestCountApp, hd]
  · have hr : validateResolution v.resolution = some "Please select a valid resolution" := by
      simp only [validateResolution, h, Bool.false_eq_true, if_false]
    simp [formValidates, submitRequestCount, hr]

/-- Witness for C7 (amended) at concrete inputs: a whitespace-only prompt,
an out-of-range duration and a disallowed resolution are each rejected by
the part_000 validator. -/
theorem claim7_amended_witness :
    formValidates { prompt := "   ", duration := 5, resolution := "854x480" } = false ∧
    formValidates { prompt := "cat", duration := 11, resolution := "854x480" } = false ∧
    formValidates { prompt := "cat", duration := 5, resolution := "999x999" } = false := by
  refine ⟨?_, ?_, ?_⟩
  · exact ((claim7_amended
      { prompt := "   ", duration := 5, resolution := "854x480" }).1 (by decide)).1
  · exact ((claim7_amended
      { prompt := "cat", duration := 11, resolution := "854x480" }).2.1 (by decide)).1
  · exact ((claim7_amended
      { prompt := "cat", duration := 5, resolution := "999x999" }).2.2.1 (by decide)).1

/-- C8: a create response carrying a truthy job id finalizes the job id,
stores the started job and begins the poll loop with a single two-second
interval; a response without an id, or a rejected create request, surfaces
the error, marks the failure with the failure indicator and a stopped
loading flag, starts no poll loop, and retains the provisional job with its
captured request parameters and its pending status for resubmission. -/
theorem claim8_submission (s : AppState) (v : FormValues) (now : String)
    (hinv : ∀ tm ∈ s.activeTimers, s.pollingInterval = some tm.id) :
    (∀ idv, idv ≠ "" →
      (handleSubmit s v (.ok { id := some idv }) now).job = some (startedJob v idv now) ∧
      (handleSubmit s v (.ok { id := some idv }) now).activeTimers
          = [⟨s.nextTimerId, 2000, idv⟩] ∧
      (handleSubmit s v (.ok { id := some idv }) now).pollingInterval
          = some s.nextTimerId ∧
      (handleSubmit s v (.ok { id := some idv }) now).error = none) ∧
    ((handleSubmit s v (.ok { id := none }) now).error
        = some "No job ID received in response" ∧
      (handleSubmit s v (.ok { id := none }) now).statusEmoji = "❌" ∧
      (handleSubmit s v (.ok { id := none }) now).isLoading = false ∧
      (handleSubmit s v (.ok { id := none }) now).activeTimers = s.activeTimers ∧
      (handleSubmit s v (.ok { id := none }) now).pollingInterval = s.pollingInterval ∧
      ((handleSubmit s v (.ok { id := none }) now).job.map VideoJob.prompt)
          = some v.prompt ∧
      ((handleSubmit s v (.ok { id := none }) now).job.map VideoJob.duration)
          = some v.duration ∧
      ((handleSubmit s v (.ok { id := none }) now).job.map VideoJob.resolution)
          = some v.resolution ∧
      ((handleSubmit s v (.ok { id := none }) now).job.map VideoJob.status)
          = some "pending") ∧
    (∀ detail message,
      (handleSubmit s v (.err detail message) now).error
          = some (orStrD detail (orStrD message "Failed to start video generation")) ∧
      (handleSubmit s v (.err detail message) now).statusEmoji = "❌" ∧
      (handleSubmit s v (.err detail message) now).isLoading = false ∧
      (handleSubmit s v (.err detail message) now).activeTimers = s.activeTimers ∧
      (handleSubmit s v (.err detail message) now).pollingInterval = s.pollingInterval ∧
      ((handleSubmit s v (.err detail message) now).job.map VideoJob.prompt)
          = some v.prompt ∧
      ((handleSubmit s v (.err detail message) now).job.map VideoJob.duration)
          = some v.duration ∧
      ((handleSubmit s v (.err detail message) now).job.map VideoJob.resolution)
          = some v.resolution ∧
      ((handleSubmit s v (.err detail message) now).job.map VideoJob.status)
          = some "pending") := by
  refine ⟨fun idv hid => ?_, ?_, fun detail message => ?_⟩
  · have ht : truthyStr (some idv) = true := by simp [truthyStr, hid]
    obtain ⟨ha, hp⟩ := handleSubmit_ok_timers s v idv now hid hinv
    refine ⟨?_, ha, hp, ?_⟩
    · unfold handleSubmit
      simp only [ht, if_true]
      simp [startJobPolling, startedJob, initialJobFor]
    · unfold handleSubmit
      simp only [ht, if_true]
      simp [startJobPolling, clearRef_error]
  · unfold handleSubmit submitFailure
    simp [truthyStr, initialJobFor]
  · unfold handleSubmit submitFailure
    simp [initialJobFor]

/-- Witness for C8 at concrete inputs: a response with an id starts polling
with the started job stored, a response without one surfaces the missing-id
error, and a rejected request surfaces its transport message. -/
theorem claim8_submission_witness :
    (handleSubmit initialAppState exFormOk (.ok { id := some "job-7" }) "T0").job
        = some (startedJob exFormOk "job-7" "T0") ∧
    (handleSubmit initialAppState exFormOk (.ok { id := none }) "T0").error
        = some "No job ID received in response" ∧
    (handleSubmit initialAppState exFormOk (.err none (some "Network Error")) "T0").error
        = some "Network Error" := by
  have h := claim8_submission initialAppState exFormOk "T0" (by decide)
  refine ⟨(h.1 "job-7" (by decide)).1, h.2.1.1, ?_⟩
  have he := (h.2.2 none (some "Network Error")).1
  have hv : orStrD none (orStrD (some "Network Error") "Failed to start video generation")
      = "Network Error" := by decide
  rw [hv] at he
  exact he

/-- C9 (counterexample): clearing the timer handle is the only cancellation
mechanism and the poll callback carries no liveness guard: in a state whose
interval has already been cleared, a poll response still in flight is merged
into the job record when it arrives, not discarded as the claim asserts. -/
theorem claim9_counterexample :
    exStale.pollingInterval = none ∧
    exStale.activeTimers = [] ∧
    (checkJobStatus exStale "job-1" (.ok exResp55)).job ≠ exStale.job ∧
    ((checkJobStatus exStale "job-1" (.ok exResp55)).job.map VideoJob.progress)
        = some (some 55) := by decide

/-- C9 (amended): cancellation prevents every future scheduled poll, since a
tick of a cleared interval and the firing of an already consumed retry are
no-ops that issue no request; but an already in-flight poll callback is not
discarded: its response is merged into the job record regardless of the
cleared timer. -/
theorem claim9_amended (s : AppState) (jobId : String) (r : PollResponse) (e : PollEvent)
    (hclear : s.activeTimers = []) (hpend : s.pendingRetries = []) :
    pollStep s e = (s, 0) ∧
    (∀ prev, s.job = some prev →
      (checkJobStatus s jobId (.ok r)).job = some (mergeJob prev r)) := by
  constructor
  · cases e with
    | tick t o => simp [pollStep, fireTick, hclear, List.find?]
    | fire i o => simp [pollStep, fireRetry, hpend, List.get?]
  · intro prev hp
    rw [checkJobStatus_ok_job, hp]
    rfl

/-- Witness for C9 (amended) at a concrete state: the cleared interval never
fires again, yet the in-flight progress response is still merged. -/
theorem claim9_amended_witness :
    pollStep exStale (.tick 3 (.ok exResp55)) = (exStale, 0) ∧
    (checkJobStatus exStale "job-1" (.ok exResp55)).job
        = some (mergeJob exJobP exResp55) := by
  have h := claim9_amended exStale "job-1" exResp55 (.tick 3 (.ok exResp55)) rfl rfl
  exact ⟨h.1, h.2 exJobP rfl⟩

end Sora
